import Mathlib

/-!
Verification of the clan-lookup microservice (`service/main.py`).

The service is a thin translator around one upstream HTTP GET per request:
`api_get_clan_by_id` / `api_get_clan_by_tag` issue the call, parse the JSON
body, and return either `(ClanModel, None)` or `(None, error message)`;
the two FastAPI endpoints `get_clan_id` / `get_clan_tag` map that pair to an
HTTP status and body.

The embedding models:
  * JSON values (`Json`) as parsed by `response.json()`;
  * Python exceptions abstractly as a class name plus the string form of
    `args[0]` (`Exc`) — every exception the translator's try-block can raise
    (`KeyError`, `TypeError`, `HTTPError`, JSON decode errors, transport
    errors, pydantic validation errors) carries a first argument;
  * the upstream as an oracle `Upstream : String → HttpResult` from the
    request URL to either a transport-level exception or a response with a
    status code and a body;
  * the try-block of each translator as an `Except Exc` computation whose
    steps transcribe the source lines in order, and the generic
    `except Exception` handler as `runCatch`;
  * each translator returns the list of URLs it requested (the source has
    exactly one unconditional `requests.get` call site per translator)
    together with the result pair.
-/

/-- JSON values, as produced by `response.json()`.  Numbers are modelled as
integers (every payload in this service's domain uses integral numbers). -/
inductive Json where
  | null
  | bool (b : Bool)
  | num (n : Int)
  | str (s : String)
  | arr (elems : List Json)
  | obj (fields : List (String × Json))

/-- A Python exception, abstracted to its class name and `str(args[0])`. -/
structure Exc where
  name : String
  arg : String
deriving DecidableEq, Repr

/-- Body of an upstream HTTP response: either JSON that `response.json()`
parses to `j`, or unparseable content on which `.json()` raises `e`. -/
inductive HttpBody where
  | json (j : Json)
  | invalid (e : Exc)

/-- Behaviour of one upstream call: `requests.get` either raises a
transport-level exception or yields a response with a status code and body. -/
inductive HttpResult where
  | transportError (e : Exc)
  | response (statusCode : Nat) (body : HttpBody)

/-- The upstream API as an oracle from request URL to behaviour. -/
abbrev Upstream := String → HttpResult

/-- `class ClanModel(BaseModel)`: the only domain entity. -/
structure ClanModel where
  clan_id : Int
  clan_tag : String
deriving DecidableEq, Repr

/-- The translators' return type `tuple[ClanModel, None] | tuple[None, str]`,
shallowly embedded as a pair of options. -/
abbrev PyPair := Option ClanModel × Option String

/-- `TAG_LOOKUP_BASE_URL.format(clan_id=clan_id, api_key=api_key)`. -/
def TAG_LOOKUP_URL (api_key : String) (clan_id : Int) : String :=
  "https://api.worldoftanks.eu/wot/clans/info/?application_id=" ++ api_key
    ++ "&fields=tag&clan_id=" ++ toString clan_id

/-- `ID_LOOKUP_BASE_URL.format(clan_tag=clan_tag, api_key=api_key)`. -/
def ID_LOOKUP_URL (api_key : String) (clan_tag : String) : String :=
  "https://api.worldoftanks.eu/wot/clans/list/?application_id=" ++ api_key
    ++ "&search=" ++ clan_tag ++ "&fields=clan_id%2C+tag"

/-- Python `j[k]` for a parsed-JSON value: dict lookup raises `KeyError k`
when the key is absent; subscripting a non-dict raises `TypeError` with
CPython's message (apostrophes written as \x27 escapes). -/
def Json.getKey : Json → String → Except Exc Json
  | .obj fields, k =>
      match fields.lookup k with
      | some v => .ok v
      | none => .error ⟨"KeyError", k⟩
  | .arr _, _ => .error ⟨"TypeError", "list indices must be integers or slices, not str"⟩
  | .str _, _ => .error ⟨"TypeError", "string indices must be integers, not \x27str\x27"⟩
  | .num _, _ => .error ⟨"TypeError", "\x27int\x27 object is not subscriptable"⟩
  | .bool _, _ => .error ⟨"TypeError", "\x27bool\x27 object is not subscriptable"⟩
  | .null, _ => .error ⟨"TypeError", "\x27NoneType\x27 object is not subscriptable"⟩

/-- Python `j == s` for a parsed-JSON value against a `str` literal:
true exactly when `j` is that string. -/
def Json.eqStr : Json → String → Bool
  | .str s, t => s = t
  | _, _ => false

/-- Python truthiness of a parsed-JSON value (`if not tag:`). -/
def Json.truthy : Json → Bool
  | .null => false
  | .bool b => b
  | .num n => n ≠ 0
  | .str s => s ≠ ""
  | .arr elems => !elems.isEmpty
  | .obj fields => !fields.isEmpty

mutual

/-- Python `repr` of a parsed-JSON value (used by `str` on containers). -/
def Json.pyRepr : Json → String
  | .null => "None"
  | .bool b => if b then "True" else "False"
  | .num n => toString n
  | .str s => "\x27" ++ s ++ "\x27"
  | .arr elems => "[" ++ Json.pyReprElems elems ++ "]"
  | .obj fields => "\x7b" ++ Json.pyReprFields fields ++ "\x7d"

/-- Comma-separated reprs of list elements. -/
def Json.pyReprElems : List Json → String
  | [] => ""
  | [x] => Json.pyRepr x
  | x :: y :: rest => Json.pyRepr x ++ ", " ++ Json.pyReprElems (y :: rest)

/-- Comma-separated `key: value` reprs of dict entries. -/
def Json.pyReprFields : List (String × Json) → String
  | [] => ""
  | [(k, v)] => "\x27" ++ k ++ "\x27: " ++ Json.pyRepr v
  | (k, v) :: e :: rest =>
      "\x27" ++ k ++ "\x27: " ++ Json.pyRepr v ++ ", " ++ Json.pyReprFields (e :: rest)

end

/-- Python `str()` of a parsed-JSON value, as used by f-string interpolation. -/
def Json.pyStr : Json → String
  | .str s => s
  | j => Json.pyRepr j

/-- Python `str.upper()`: upper-cases each character (the service's tags are
ASCII); defined by structural recursion over the character list so that it
evaluates by `decide`. -/
def pyUpper (s : String) : String := String.mk (s.data.map Char.toUpper)

/-- `response.raise_for_status()` followed by `response.json()`: a transport
exception propagates; a 4xx status raises `HTTPError` ("Client Error"), a 5xx
raises `HTTPError` ("Server Error"); an unparseable body raises the decode
error; otherwise the parsed JSON value is produced. -/
def fetchJson (oracle : Upstream) (url : String) : Except Exc Json :=
  match oracle url with
  | .transportError e => .error e
  | .response code body =>
      if 400 ≤ code ∧ code < 500 then
        .error ⟨"HTTPError", toString code ++ " Client Error for url: " ++ url⟩
      else if 500 ≤ code ∧ code < 600 then
        .error ⟨"HTTPError", toString code ++ " Server Error for url: " ++ url⟩
      else
        match body with
        | .invalid e => .error e
        | .json j => .ok j

/-- Python iteration `for result in data` over a parsed-JSON value: a list
yields its elements, a dict its keys, a string its characters; scalars raise
`TypeError`. -/
def pyIter : Json → Except Exc (List Json)
  | .arr elems => .ok elems
  | .obj fields => .ok (fields.map fun f => Json.str f.1)
  | .str s => .ok (s.data.map fun c => Json.str (String.singleton c))
  | .num _ => .error ⟨"TypeError", "\x27int\x27 object is not iterable"⟩
  | .bool _ => .error ⟨"TypeError", "\x27bool\x27 object is not iterable"⟩
  | .null => .error ⟨"TypeError", "\x27NoneType\x27 object is not iterable"⟩

/-- The list comprehension
`[result for result in data if result["tag"] == clan_tag]`:
evaluates `result["tag"]` left to right, the first exception propagating. -/
def filterByTag : List Json → String → Except Exc (List Json)
  | [], _ => .ok []
  | r :: rest, tag =>
      Except.bind (Json.getKey r "tag") fun t =>
      Except.bind (filterByTag rest tag) fun xs =>
      .ok (if t.eqStr tag then r :: xs else xs)

/-- `valid_responses[0]`: Python list indexing raises `IndexError` on an
empty list. -/
def pyIndex0 : List Json → Except Exc Json
  | [] => .error ⟨"IndexError", "list index out of range"⟩
  | x :: _ => .ok x

/-- pydantic validation of the `clan_id: int` field against a parsed-JSON
value: ints pass, numeric strings coerce, everything else raises
`ValidationError`. -/
def pydanticInt (j : Json) : Except Exc Int :=
  match j with
  | .num n => .ok n
  | .str s =>
      match s.toInt? with
      | some n => .ok n
      | none => .error ⟨"ValidationError", "1 validation error for ClanModel"⟩
  | _ => .error ⟨"ValidationError", "1 validation error for ClanModel"⟩

/-- pydantic validation of the `clan_tag: str` field against a parsed-JSON
value: strings pass, everything else raises `ValidationError`. -/
def pydanticStr (j : Json) : Except Exc String :=
  match j with
  | .str s => .ok s
  | _ => .error ⟨"ValidationError", "1 validation error for ClanModel"⟩

/-- The message built by the generic `except Exception as error:` handler:
`f"An Exception was raised during the api request. {ErrorKind}: {args[0]}."`. -/
def catchMsg (e : Exc) : String :=
  "An Exception was raised during the api request. " ++ e.name ++ ": " ++ e.arg ++ "."

/-- The `try`/`except Exception` wrapper shared by both translators: a normal
result passes through, any exception becomes `(None, catch-all message)`. -/
def runCatch (body : Except Exc PyPair) : PyPair :=
  match body with
  | .ok r => r
  | .error e => (none, some (catchMsg e))

/-- The try-block of `api_get_clan_by_id`, line by line. -/
def tryBodyById (oracle : Upstream) (clan_id : Int) (api_key : String) :
    Except Exc PyPair :=
  Except.bind (fetchJson oracle (TAG_LOOKUP_URL api_key clan_id)) fun j =>
  Except.bind (j.getKey "status") fun status =>
  if status.eqStr "ok" = false then
    Except.bind (j.getKey "error") fun errObj =>
    Except.bind (errObj.getKey "message") fun msg =>
    .ok (none, some ("API Request responded with an error: " ++ msg.pyStr))
  else
    Except.bind (j.getKey "data") fun data =>
    Except.bind (data.getKey (toString clan_id)) fun entry =>
    Except.bind (entry.getKey "tag") fun tag =>
    if tag.truthy = false then
      .ok (none, some ("No clan was found for this id: " ++ toString clan_id))
    else
      Except.bind (pydanticStr tag) fun tagStr =>
      .ok (some ⟨clan_id, tagStr⟩, none)

/-- `api_get_clan_by_id(clan_id, api_key)`: the issued request URLs (the
source has exactly one unconditional `requests.get` call) paired with the
returned `(ClanModel | None, str | None)` value. -/
def api_get_clan_by_id (oracle : Upstream) (clan_id : Int) (api_key : String) :
    List String × PyPair :=
  ([TAG_LOOKUP_URL api_key clan_id], runCatch (tryBodyById oracle clan_id api_key))

/-- The try-block of `api_get_clan_by_tag`, line by line. -/
def tryBodyByTag (oracle : Upstream) (clan_tag : String) (api_key : String) :
    Except Exc PyPair :=
  Except.bind (fetchJson oracle (ID_LOOKUP_URL api_key clan_tag)) fun j =>
  Except.bind (j.getKey "status") fun status =>
  if status.eqStr "ok" = false then
    Except.bind (j.getKey "error") fun errObj =>
    Except.bind (errObj.getKey "message") fun msg =>
    .ok (none, some ("API Request responded with an error: " ++ msg.pyStr))
  else
    Except.bind (j.getKey "data") fun data =>
    Except.bind (pyIter data) fun items =>
    Except.bind (filterByTag items clan_tag) fun valid =>
    if valid.length = 0 then
      .ok (none, some ("No clan was found for this id: " ++ clan_tag))
    else
      Except.bind (pyIndex0 valid) fun first =>
      Except.bind (first.getKey "clan_id") fun cidJ =>
      Except.bind (pydanticInt cidJ) fun cid =>
      .ok (some ⟨cid, clan_tag⟩, none)

/-- `api_get_clan_by_tag(clan_tag, api_key)`: the issued request URLs paired
with the returned value. -/
def api_get_clan_by_tag (oracle : Upstream) (clan_tag : String) (api_key : String) :
    List String × PyPair :=
  ([ID_LOOKUP_URL api_key clan_tag], runCatch (tryBodyByTag oracle clan_tag api_key))

/-- Truthiness of the `err` variable (`Optional[str]`): `None` and the empty
string are falsy. -/
def strOptTruthy : Option String → Bool
  | none => false
  | some s => s ≠ ""

/-- Python `needle in hay` on strings: substring containment. -/
def pyInB (needle hay : String) : Bool := decide (needle.data <:+: hay.data)

/-- Result of one endpoint call: either a 200 with a `ClanModel` body, or a
`fastapi.HTTPException` with a status code and `detail` payload. -/
inductive EndpointResult where
  | ok (m : ClanModel)
  | httpError (statusCode : Nat) (detail : Option String)
deriving DecidableEq, Repr

/-- The error-mapping block duplicated verbatim in both endpoints:
`if err and "No clan was found" in err: raise 404` /
`if err or result is None: raise 400` / `return result`.
The final fallback arm is unreachable (guarded by `result is None`). -/
def httpLayer (pair : PyPair) : EndpointResult :=
  let result := pair.1
  let err := pair.2
  if strOptTruthy err && pyInB "No clan was found" (err.getD "") then
    .httpError 404 err
  else if strOptTruthy err || result.isNone then
    .httpError 400 err
  else
    match result with
    | some m => .ok m
    | none => .httpError 400 err

/-- Endpoint `GET /clan/tag/{clan_tag}` (`get_clan_id`): normalizes the tag
to uppercase, runs the by-tag translator, maps the pair to an HTTP result.
The API key (module global `API_KEY` in the source) is passed explicitly. -/
def get_clan_id (oracle : Upstream) (clan_tag : String) (api_key : String) :
    List String × EndpointResult :=
  let r := api_get_clan_by_tag oracle (pyUpper clan_tag) api_key
  (r.1, httpLayer r.2)

/-- Endpoint `GET /clan/id/{clan_id}` (`get_clan_tag`): runs the by-id
translator and maps the pair to an HTTP result. -/
def get_clan_tag (oracle : Upstream) (clan_id : Int) (api_key : String) :
    List String × EndpointResult :=
  let r := api_get_clan_by_id oracle clan_id api_key
  (r.1, httpLayer r.2)

/-- Whether a candidate record matches the searched tag: its `"tag"` field
exists and equals the tag (the comprehension's test `result["tag"] == clan_tag`
on a candidate whose field access succeeds). -/
def tagMatches (x : Json) (tag : String) : Bool :=
  match x.getKey "tag" with
  | .ok t => t.eqStr tag
  | .error _ => false

/-! ### Helper lemmas -/

theorem except_bind_eq_ok {α β : Type} {x : Except Exc α} {f : α → Except Exc β}
    {b : β} : Except.bind x f = .ok b ↔ ∃ a, x = .ok a ∧ f a = .ok b := by
  cases x <;> simp [Except.bind]

theorem str_append_ne_empty (s t : String) (h : s ≠ "") : s ++ t ≠ "" := by
  intro he
  apply h
  apply String.ext
  have hd := congrArg String.data he
  rw [String.data_append] at hd
  have : s.data ++ t.data = ([] : List Char) := hd
  have h2 := List.append_eq_nil.mp this
  simpa using h2.1

theorem catchMsg_ne_empty (e : Exc) : catchMsg e ≠ "" := by
  unfold catchMsg
  exact str_append_ne_empty _ _ (str_append_ne_empty _ _
    (str_append_ne_empty _ _ (str_append_ne_empty _ _ (by decide))))

theorem tryBodyByTag_ok_cases (oracle : Upstream) (tag key : String) (p : PyPair)
    (h : tryBodyByTag oracle tag key = .ok p) :
    (∃ cid : Int, p = (some ⟨cid, tag⟩, none)) ∨
      (∃ s, s ≠ "" ∧ p = (none, some s)) := by
  unfold tryBodyByTag at h
  rw [except_bind_eq_ok] at h
  obtain ⟨j, hj, h⟩ := h
  rw [except_bind_eq_ok] at h
  obtain ⟨status, hst, h⟩ := h
  split at h
  · rw [except_bind_eq_ok] at h
    obtain ⟨errObj, herr, h⟩ := h
    rw [except_bind_eq_ok] at h
    obtain ⟨msg, hmsg, h⟩ := h
    right
    have hp := ((Except.ok.injEq _ _).mp h).symm
    exact ⟨_, str_append_ne_empty _ _ (by decide), hp⟩
  · rw [except_bind_eq_ok] at h
    obtain ⟨data, hdata, h⟩ := h
    rw [except_bind_eq_ok] at h
    obtain ⟨items, hitems, h⟩ := h
    rw [except_bind_eq_ok] at h
    obtain ⟨valid, hvalid, h⟩ := h
    split at h
    · right
      have hp := ((Except.ok.injEq _ _).mp h).symm
      exact ⟨_, str_append_ne_empty _ _ (by decide), hp⟩
    · rw [except_bind_eq_ok] at h
      obtain ⟨first, hfirst, h⟩ := h
      rw [except_bind_eq_ok] at h
      obtain ⟨cidJ, hcidJ, h⟩ := h
      rw [except_bind_eq_ok] at h
      obtain ⟨cid, hcid, h⟩ := h
      left
      exact ⟨cid, ((Except.ok.injEq _ _).mp h).symm⟩

theorem tryBodyById_ok_cases (oracle : Upstream) (clan_id : Int) (key : String)
    (p : PyPair) (h : tryBodyById oracle clan_id key = .ok p) :
    (∃ t : String, p = (some ⟨clan_id, t⟩, none)) ∨
      (∃ s, s ≠ "" ∧ p = (none, some s)) := by
  unfold tryBodyById at h
  rw [except_bind_eq_ok] at h
  obtain ⟨j, hj, h⟩ := h
  rw [except_bind_eq_ok] at h
  obtain ⟨status, hst, h⟩ := h
  split at h
  · rw [except_bind_eq_ok] at h
    obtain ⟨errObj, herr, h⟩ := h
    rw [except_bind_eq_ok] at h
    obtain ⟨msg, hmsg, h⟩ := h
    right
    have hp := ((Except.ok.injEq _ _).mp h).symm
    exact ⟨_, str_append_ne_empty _ _ (by decide), hp⟩
  · rw [except_bind_eq_ok] at h
    obtain ⟨data, hdata, h⟩ := h
    rw [except_bind_eq_ok] at h
    obtain ⟨entry, hentry, h⟩ := h
    rw [except_bind_eq_ok] at h
    obtain ⟨tag, htag, h⟩ := h
    split at h
    · right
      have hp := ((Except.ok.injEq _ _).mp h).symm
      exact ⟨_, str_append_ne_empty _ _ (by decide), hp⟩
    · rw [except_bind_eq_ok] at h
      obtain ⟨tagStr, htagStr, h⟩ := h
      left
      exact ⟨tagStr, ((Except.ok.injEq _ _).mp h).symm⟩

theorem api_by_tag_shape (oracle : Upstream) (tag key : String) :
    (∃ cid : Int, (api_get_clan_by_tag oracle tag key).2 = (some ⟨cid, tag⟩, none)) ∨
      (∃ s, s ≠ "" ∧ (api_get_clan_by_tag oracle tag key).2 = (none, some s)) := by
  unfold api_get_clan_by_tag runCatch
  rcases hb : tryBodyByTag oracle tag key with e | p
  · right
    exact ⟨catchMsg e, catchMsg_ne_empty e, rfl⟩
  · simpa using tryBodyByTag_ok_cases oracle tag key p hb

theorem api_by_id_shape (oracle : Upstream) (clan_id : Int) (key : String) :
    (∃ t : String, (api_get_clan_by_id oracle clan_id key).2 = (some ⟨clan_id, t⟩, none)) ∨
      (∃ s, s ≠ "" ∧ (api_get_clan_by_id oracle clan_id key).2 = (none, some s)) := by
  unfold api_get_clan_by_id runCatch
  rcases hb : tryBodyById oracle clan_id key with e | p
  · right
    exact ⟨catchMsg e, catchMsg_ne_empty e, rfl⟩
  · simpa using tryBodyById_ok_cases oracle clan_id key p hb

/-! ### Claim theorems -/

/-- C1: for every input and every upstream behaviour (any response body, any
transport failure), `api_get_clan_by_tag` and `api_get_clan_by_id` terminate
by returning one `LookupOutcome`-shaped value — a `(ClanModel, None)` or a
`(None, message)` pair; no fault escapes the translator, and in particular
the generic catch-all branch itself is total. -/
theorem claim_C1_no_unhandled_fault (oracle : Upstream) (clan_id : Int)
    (clan_tag api_key : String) :
    ((∃ m, (api_get_clan_by_id oracle clan_id api_key).2 = (some m, none)) ∨
      (∃ s, (api_get_clan_by_id oracle clan_id api_key).2 = (none, some s))) ∧
    ((∃ m, (api_get_clan_by_tag oracle clan_tag api_key).2 = (some m, none)) ∨
      (∃ s, (api_get_clan_by_tag oracle clan_tag api_key).2 = (none, some s))) := by
  constructor
  · rcases api_by_id_shape oracle clan_id api_key with ⟨t, hp⟩ | ⟨s, _, hp⟩
    · exact Or.inl ⟨_, hp⟩
    · exact Or.inr ⟨s, hp⟩
  · rcases api_by_tag_shape oracle clan_tag api_key with ⟨cid, hp⟩ | ⟨s, _, hp⟩
    · exact Or.inl ⟨_, hp⟩
    · exact Or.inr ⟨s, hp⟩

/-- C9: every value returned by `api_get_clan_by_id` or `api_get_clan_by_tag`
has exactly one non-`None` component — `(ClanModel, None)` on success, with
both `clan_id` and `clan_tag` populated (intrinsic to the `ClanModel`
structure, whose two fields are total), or `(None, message)` with a non-empty
message on failure; never `(None, None)` and never both populated. -/
theorem claim_C9_pair_invariant (oracle : Upstream) (clan_id : Int)
    (clan_tag api_key : String) :
    ((∃ m, (api_get_clan_by_id oracle clan_id api_key).2 = (some m, none)) ∨
      (∃ s, s ≠ "" ∧ (api_get_clan_by_id oracle clan_id api_key).2 = (none, some s))) ∧
    ((∃ m, (api_get_clan_by_tag oracle clan_tag api_key).2 = (some m, none)) ∨
      (∃ s, s ≠ "" ∧ (api_get_clan_by_tag oracle clan_tag api_key).2 = (none, some s))) := by
  constructor
  · rcases api_by_id_shape oracle clan_id api_key with ⟨t, hp⟩ | ⟨s, hs, hp⟩
    · exact Or.inl ⟨_, hp⟩
    · exact Or.inr ⟨s, hs, hp⟩
  · rcases api_by_tag_shape oracle clan_tag api_key with ⟨cid, hp⟩ | ⟨s, hs, hp⟩
    · exact Or.inl ⟨_, hp⟩
    · exact Or.inr ⟨s, hs, hp⟩

/-- C3: for every translator failure outcome `(None, msg)`, the endpoint
error-mapping block (`httpLayer`, inlined verbatim in both `get_clan_id` and
`get_clan_tag`) returns status 404 exactly when `msg` contains the substring
"No clan was found" and status 400 for every other message, and in both cases
the `detail` payload is exactly the translator's string, unmodified. -/
theorem claim_C3_status_mapping (msg : String) :
    httpLayer (none, some msg) =
      .httpError (if pyInB "No clan was found" msg then 404 else 400) (some msg) := by
  by_cases hc : pyInB "No clan was found" msg = true
  · have hne : msg ≠ "" := by
      intro he
      subst he
      exact absurd hc (by decide)
    simp [httpLayer, strOptTruthy, hc, hne]
  · simp only [Bool.not_eq_true] at hc
    simp [httpLayer, strOptTruthy, hc]

theorem filterByTag_eq_filter (items : List Json) (tag : String)
    (hread : ∀ x ∈ items, ∃ t, x.getKey "tag" = .ok t) :
    filterByTag items tag = .ok (items.filter fun x => tagMatches x tag) := by
  induction items with
  | nil => rfl
  | cons r rest ih =>
    obtain ⟨t, ht⟩ := hread r (List.mem_cons_self r rest)
    have hrest := ih fun x hx => hread x (List.mem_cons_of_mem r hx)
    simp only [filterByTag, ht, hrest, Except.bind, List.filter_cons, tagMatches]

theorem filterByTag_error (pre : List Json) (bad : Json) (post : List Json)
    (tag : String) (e : Exc)
    (hread : ∀ x ∈ pre, ∃ t, x.getKey "tag" = .ok t)
    (hbad : bad.getKey "tag" = .error e) :
    filterByTag (pre ++ bad :: post) tag = .error e := by
  induction pre with
  | nil => simp [filterByTag, hbad, Except.bind]
  | cons r rest ih =>
    obtain ⟨t, ht⟩ := hread r (by simp)
    have hrest := ih fun x hx => hread x (by simp [hx])
    simp [filterByTag, ht, hrest, Except.bind]

/-- C2: if the upstream by-tag search responds 200 with status "ok" and a
candidate list in which exactly one element `e` matches the (normalized)
input tag — every candidate's `tag` field being readable — then the lookup
returns Found: `(ClanModel(e.clan_id, tag), None)`. -/
theorem claim_C2_unique_match_found (oracle : Upstream) (tagU key : String)
    (j e : Json) (items : List Json) (cid : Int)
    (h1 : oracle (ID_LOOKUP_URL key tagU) = .response 200 (.json j))
    (h2 : j.getKey "status" = .ok (Json.str "ok"))
    (h3 : j.getKey "data" = .ok (Json.arr items))
    (hread : ∀ x ∈ items, ∃ t, x.getKey "tag" = .ok t)
    (hone : items.filter (fun x => tagMatches x tagU) = [e])
    (hcid : e.getKey "clan_id" = .ok (Json.num cid)) :
    (api_get_clan_by_tag oracle tagU key).2 = (some ⟨cid, tagU⟩, none) := by
  have hfilter := filterByTag_eq_filter items tagU hread
  rw [hone] at hfilter
  unfold api_get_clan_by_tag runCatch tryBodyByTag
  simp [fetchJson, h1, h2, h3, hfilter, hcid, Except.bind, Json.eqStr,
    pyIter, pyIndex0, pydanticInt]

/-- C2 witness: a concrete run through `claim_C2_unique_match_found` with a
one-element candidate list. -/
theorem claim_C2_unique_match_found_witness :
    (api_get_clan_by_tag
        (fun _ => .response 200 (.json (Json.obj
          [("status", Json.str "ok"),
           ("data", Json.arr [Json.obj [("clan_id", Json.num 5000000),
                                        ("tag", Json.str "EXAMPLE")]])])))
        "EXAMPLE" "k").2 = (some ⟨5000000, "EXAMPLE"⟩, none) := by
  exact claim_C2_unique_match_found _ "EXAMPLE" "k" _
    (Json.obj [("clan_id", Json.num 5000000), ("tag", Json.str "EXAMPLE")])
    _ 5000000 rfl rfl rfl
    (by intro x hx; simp at hx; exact ⟨Json.str "EXAMPLE", by rw [hx]; rfl⟩)
    rfl rfl

/-- C5: if the upstream by-tag search responds 200 with status "ok" and a
candidate list (possibly non-empty, every candidate's `tag` field readable)
in which no element matches the input tag, the lookup returns NotFound with
exactly the message `"No clan was found for this id: {tag}"` — the word "id"
preserved literally. -/
theorem claim_C5_no_match_not_found (oracle : Upstream) (tagU key : String)
    (j : Json) (items : List Json)
    (h1 : oracle (ID_LOOKUP_URL key tagU) = .response 200 (.json j))
    (h2 : j.getKey "status" = .ok (Json.str "ok"))
    (h3 : j.getKey "data" = .ok (Json.arr items))
    (hread : ∀ x ∈ items, ∃ t, x.getKey "tag" = .ok t)
    (hnone : items.filter (fun x => tagMatches x tagU) = []) :
    (api_get_clan_by_tag oracle tagU key).2 =
      (none, some ("No clan was found for this id: " ++ tagU)) := by
  have hfilter := filterByTag_eq_filter items tagU hread
  rw [hnone] at hfilter
  unfold api_get_clan_by_tag runCatch tryBodyByTag
  simp [fetchJson, h1, h2, h3, hfilter, Except.bind, Json.eqStr, pyIter]

/-- C5 witness: a concrete run through `claim_C5_no_match_not_found` with a
non-empty candidate list whose single element does not match. -/
theorem claim_C5_no_match_not_found_witness :
    (api_get_clan_by_tag
        (fun _ => .response 200 (.json (Json.obj
          [("status", Json.str "ok"),
           ("data", Json.arr [Json.obj [("clan_id", Json.num 1),
                                        ("tag", Json.str "OTHER")]])])))
        "EXAMPLE" "k").2 = (none, some "No clan was found for this id: EXAMPLE") := by
  exact claim_C5_no_match_not_found _ "EXAMPLE" "k" _ _ rfl rfl rfl
    (by intro x hx; simp at hx; exact ⟨Json.str "OTHER", by rw [hx]; rfl⟩)
    rfl

/-- C10: the exact-match comprehension evaluates `result["tag"]` for every
candidate, so one candidate without a `tag` key anywhere in the list makes
the whole lookup take the generic catch-all — `(None, "An Exception was
raised during the api request. KeyError: tag.")` — even when an earlier
candidate in the same list matches the input tag exactly. -/
theorem claim_C10_filter_keyerror (oracle : Upstream) (tagU key : String)
    (j bad : Json) (pre post : List Json)
    (h1 : oracle (ID_LOOKUP_URL key tagU) = .response 200 (.json j))
    (h2 : j.getKey "status" = .ok (Json.str "ok"))
    (h3 : j.getKey "data" = .ok (Json.arr (pre ++ bad :: post)))
    (hread : ∀ x ∈ pre, ∃ t, x.getKey "tag" = .ok t)
    (hbad : bad.getKey "tag" = .error ⟨"KeyError", "tag"⟩) :
    (api_get_clan_by_tag oracle tagU key).2 =
      (none, some "An Exception was raised during the api request. KeyError: tag.") := by
  have hfilter := filterByTag_error pre bad post tagU ⟨"KeyError", "tag"⟩ hread hbad
  unfold api_get_clan_by_tag runCatch tryBodyByTag
  simp [fetchJson, h1, h2, h3, hfilter, Except.bind, Json.eqStr, pyIter, catchMsg]

/-- C10 witness: the first candidate matches "EXAMPLE" exactly, the second
lacks a `tag` key; the lookup still returns the catch-all. -/
theorem claim_C10_filter_keyerror_witness :
    (api_get_clan_by_tag
        (fun _ => .response 200 (.json (Json.obj
          [("status", Json.str "ok"),
           ("data", Json.arr [Json.obj [("clan_id", Json.num 1),
                                        ("tag", Json.str "EXAMPLE")],
                              Json.obj [("clan_id", Json.num 2)]])])))
        "EXAMPLE" "k").2 =
      (none, some "An Exception was raised during the api request. KeyError: tag.") := by
  exact claim_C10_filter_keyerror _ "EXAMPLE" "k" _
    (Json.obj [("clan_id", Json.num 2)])
    [Json.obj [("clan_id", Json.num 1), ("tag", Json.str "EXAMPLE")]] []
    rfl rfl rfl
    (by intro x hx; simp at hx; exact ⟨Json.str "EXAMPLE", by rw [hx]; rfl⟩)
    rfl

/-- C6: for both lookups, whenever the upstream body's top-level `status`
field is present and differs from "ok", the result is RequestFailed with
message exactly `"API Request responded with an error: "` followed by the
string read from `error.message` — regardless of what the rest of the payload
(in particular `data`) contains. -/
theorem claim_C6_upstream_error_message (oracle : Upstream) (clan_id : Int)
    (tagU key : String) (j errObj v : Json) (m : String)
    (h1 : oracle (TAG_LOOKUP_URL key clan_id) = .response 200 (.json j))
    (h2 : oracle (ID_LOOKUP_URL key tagU) = .response 200 (.json j))
    (h3 : j.getKey "status" = .ok v)
    (h4 : v.eqStr "ok" = false)
    (h5 : j.getKey "error" = .ok errObj)
    (h6 : errObj.getKey "message" = .ok (Json.str m)) :
    (api_get_clan_by_id oracle clan_id key).2 =
        (none, some ("API Request responded with an error: " ++ m)) ∧
    (api_get_clan_by_tag oracle tagU key).2 =
        (none, some ("API Request responded with an error: " ++ m)) := by
  constructor
  · unfold api_get_clan_by_id runCatch tryBodyById
    simp [fetchJson, h1, h3, h4, h5, h6, Except.bind, Json.pyStr]
  · unfold api_get_clan_by_tag runCatch tryBodyByTag
    simp [fetchJson, h2, h3, h4, h5, h6, Except.bind, Json.pyStr]

/-- C6 witness: the upstream error payload of end-to-end scenario D,
`{"status": "error", "error": {"message": "TEST_API_ERROR"}}`, served to both
lookups. -/
theorem claim_C6_upstream_error_message_witness :
    (api_get_clan_by_id
        (fun _ => .response 200 (.json (Json.obj
          [("status", Json.str "error"),
           ("error", Json.obj [("message", Json.str "TEST_API_ERROR")])])))
        5000000 "k").2 =
      (none, some "API Request responded with an error: TEST_API_ERROR") ∧
    (api_get_clan_by_tag
        (fun _ => .response 200 (.json (Json.obj
          [("status", Json.str "error"),
           ("error", Json.obj [("message", Json.str "TEST_API_ERROR")])])))
        "EXAMPLE" "k").2 =
      (none, some "API Request responded with an error: TEST_API_ERROR") := by
  exact claim_C6_upstream_error_message _ 5000000 "EXAMPLE" "k" _ _
    (Json.str "error") "TEST_API_ERROR" rfl rfl rfl rfl rfl rfl

/-- C7: for both lookups, a payload whose `status` is "ok" but which has no
top-level `data` key is classified exactly like a transport failure:
RequestFailed with message exactly
`"An Exception was raised during the api request. KeyError: data."`. -/
theorem claim_C7_missing_data_key (oracle : Upstream) (clan_id : Int)
    (tagU key : String) (j : Json)
    (h1 : oracle (TAG_LOOKUP_URL key clan_id) = .response 200 (.json j))
    (h2 : oracle (ID_LOOKUP_URL key tagU) = .response 200 (.json j))
    (h3 : j.getKey "status" = .ok (Json.str "ok"))
    (h4 : j.getKey "data" = .error ⟨"KeyError", "data"⟩) :
    (api_get_clan_by_id oracle clan_id key).2 =
        (none, some "An Exception was raised during the api request. KeyError: data.") ∧
    (api_get_clan_by_tag oracle tagU key).2 =
        (none, some "An Exception was raised during the api request. KeyError: data.") := by
  constructor
  · unfold api_get_clan_by_id runCatch tryBodyById
    simp [fetchJson, h1, h3, h4, Except.bind, Json.eqStr, catchMsg]
  · unfold api_get_clan_by_tag runCatch tryBodyByTag
    simp [fetchJson, h2, h3, h4, Except.bind, Json.eqStr, catchMsg]

/-- C7 witness: the `{"status": "ok"}` payload of the repository's
"unexpected error" tests, served to both lookups. -/
theorem claim_C7_missing_data_key_witness :
    (api_get_clan_by_id
        (fun _ => .response 200 (.json (Json.obj [("status", Json.str "ok")])))
        5000000 "k").2 =
      (none, some "An Exception was raised during the api request. KeyError: data.") ∧
    (api_get_clan_by_tag
        (fun _ => .response 200 (.json (Json.obj [("status", Json.str "ok")])))
        "EXAMPLE" "k").2 =
      (none, some "An Exception was raised during the api request. KeyError: data.") := by
  exact claim_C7_missing_data_key _ 5000000 "EXAMPLE" "k" _ rfl rfl rfl rfl

/-- C4 counterexample: with upstream payload
`{"status": "ok", "data": {"5000000": {}}}` — `data[str(I)]` present but its
`tag` key absent, one of the three falsy cases the claim lists —
`api_get_clan_by_id` returns the generic catch-all
`"An Exception was raised during the api request. KeyError: tag."`, which is
not a NotFound message and does not contain the decimal string of the id. -/
theorem claim_C4_counterexample :
    (api_get_clan_by_id
        (fun _ => .response 200 (.json (Json.obj
          [("status", Json.str "ok"),
           ("data", Json.obj [("5000000", Json.obj [])])])))
        5000000 "k").2 =
      (none, some "An Exception was raised during the api request. KeyError: tag.") ∧
    (api_get_clan_by_id
        (fun _ => .response 200 (.json (Json.obj
          [("status", Json.str "ok"),
           ("data", Json.obj [("5000000", Json.obj [])])])))
        5000000 "k").2 ≠
      (none, some "No clan was found for this id: 5000000") ∧
    pyInB "5000000" "An Exception was raised during the api request. KeyError: tag." =
      false := by
  refine ⟨rfl, by decide, by decide⟩

/-- C4 (amended): if the upstream by-id response has status "ok" and
`data[str(I)].tag` is present but falsy (empty string, null, 0, false, an
empty list or an empty dict), `api_get_clan_by_id` returns NotFound with the
message `"No clan was found for this id: {I}"`, which contains the literal
decimal string of `I`; an absent `tag` key instead raises `KeyError` and is
classified by the generic catch-all as RequestFailed. -/
theorem claim_C4_falsy_tag_not_found (oracle : Upstream) (clan_id : Int)
    (key : String) (j d entry t : Json)
    (h1 : oracle (TAG_LOOKUP_URL key clan_id) = .response 200 (.json j))
    (h2 : j.getKey "status" = .ok (Json.str "ok"))
    (h3 : j.getKey "data" = .ok d)
    (h4 : d.getKey (toString clan_id) = .ok entry)
    (h5 : entry.getKey "tag" = .ok t)
    (h6 : t.truthy = false) :
    (api_get_clan_by_id oracle clan_id key).2 =
      (none, some ("No clan was found for this id: " ++ toString clan_id)) := by
  unfold api_get_clan_by_id runCatch tryBodyById
  simp [fetchJson, h1, h2, h3, h4, h5, h6, Except.bind, Json.eqStr]

/-- C4 witness: end-to-end scenario C's payload
`{"status": "ok", "data": {"5000000": {"tag": null}}}` — a present, falsy
(null) tag — yields the NotFound message. -/
theorem claim_C4_falsy_tag_not_found_witness :
    (api_get_clan_by_id
        (fun _ => .response 200 (.json (Json.obj
          [("status", Json.str "ok"),
           ("data", Json.obj [("5000000", Json.obj [("tag", Json.null)])])])))
        5000000 "k").2 =
      (none, some "No clan was found for this id: 5000000") := by
  exact claim_C4_falsy_tag_not_found _ 5000000 "k" _
    (Json.obj [("5000000", Json.obj [("tag", Json.null)])])
    (Json.obj [("tag", Json.null)]) Json.null rfl rfl rfl rfl rfl rfl

theorem httpLayer_success (m : ClanModel) : httpLayer (some m, none) = .ok m := by
  simp [httpLayer, strOptTruthy]

theorem httpLayer_none_ne_ok (err : Option String) (m : ClanModel) :
    httpLayer (none, err) ≠ .ok m := by
  simp only [httpLayer]
  split
  · simp
  · split
    · simp
    · simp

/-- C8: the by-tag endpoint `GET /clan/tag/{clan_tag}` issues exactly one
upstream search call, whose search parameter is the input tag upper-cased
(its trace is the singleton `[ID_LOOKUP_URL key (pyUpper T)]`), and any
clan record it returns carries that upper-cased tag as its `clan_tag` —
the exact-match filter and the returned record both use the normalized tag. -/
theorem claim_C8_single_uppercased_call (oracle : Upstream) (T key : String) :
    (get_clan_id oracle T key).1 = [ID_LOOKUP_URL key (pyUpper T)] ∧
    ∀ m : ClanModel, (get_clan_id oracle T key).2 = .ok m → m.clan_tag = pyUpper T := by
  refine ⟨rfl, ?_⟩
  intro m hm
  rcases api_by_tag_shape oracle (pyUpper T) key with ⟨cid, hp⟩ | ⟨s, hs, hp⟩
  · have hres : (get_clan_id oracle T key).2 = .ok ⟨cid, pyUpper T⟩ := by
      simp only [get_clan_id]
      rw [hp]
      exact httpLayer_success _
    rw [hres] at hm
    injection hm with h
    rw [← h]
  · exfalso
    apply httpLayer_none_ne_ok (some s) m
    have hres : (get_clan_id oracle T key).2 = httpLayer (none, some s) := by
      simp only [get_clan_id]
      rw [hp]
    rw [← hres]
    exact hm

/-- C8 witness: a concrete end-to-end run — input tag "example", upstream
answering the search with one matching "EXAMPLE" record — through
`claim_C8_single_uppercased_call`. -/
theorem claim_C8_single_uppercased_call_witness :
    (get_clan_id
        (fun _ => .response 200 (.json (Json.obj
          [("status", Json.str "ok"),
           ("data", Json.arr [Json.obj [("clan_id", Json.num 5000000),
                                        ("tag", Json.str "EXAMPLE")]])])))
        "example" "k").1 = [ID_LOOKUP_URL "k" (pyUpper "example")] ∧
    (get_clan_id
        (fun _ => .response 200 (.json (Json.obj
          [("status", Json.str "ok"),
           ("data", Json.arr [Json.obj [("clan_id", Json.num 5000000),
                                        ("tag", Json.str "EXAMPLE")]])])))
        "example" "k").2 = .ok ⟨5000000, "EXAMPLE"⟩ ∧
    (⟨5000000, "EXAMPLE"⟩ : ClanModel).clan_tag = pyUpper "example" := by
  refine ⟨(claim_C8_single_uppercased_call
      (fun _ => .response 200 (.json (Json.obj
        [("status", Json.str "ok"),
         ("data", Json.arr [Json.obj [("clan_id", Json.num 5000000),
                                      ("tag", Json.str "EXAMPLE")]])])))
      "example" "k").1, by decide, ?_⟩
  exact (claim_C8_single_uppercased_call
      (fun _ => .response 200 (.json (Json.obj
        [("status", Json.str "ok"),
         ("data", Json.arr [Json.obj [("clan_id", Json.num 5000000),
                                      ("tag", Json.str "EXAMPLE")]])])))
      "example" "k").2 ⟨5000000, "EXAMPLE"⟩ (by decide)
